import Mathlib

/-!
# CineNorte — shallow embedding and verification

This file embeds the parts of the CineNorte content-generation pipeline that
the specification talks about, translated from the Python source:

* `main.py` — `CineNorteSystem.generate_content` (the one-shot pipeline);
* `ai_optimizer.py` — `AIOptimizer` scoring heuristics and fallbacks;
* `src/ai_optimizer.py` — the duplicated `AIOptimizer.analyze_content_impact`;
* `content_analyzer.py` — `ContentAnalyzer` catalog access and viability score;
* `format_generator.py` — `FormatGenerator` multi-format export table;
* `thumbnail_generator.py` — `ThumbnailGenerator` optimization score.

External effects (TMDB/OpenAI network calls, the `re` regex engine, file I/O,
image pixel statistics) are modelled as explicit oracle parameters: each call
into a third-party library becomes a value of type `Except String α`
(a call that either returns or raises) or a plain function supplied to the
embedded code.  All numeric computation is over `ℚ`, the exact model of the
Python float arithmetic used by these heuristics.
-/

namespace CineNorte

/-! ### String helpers: models of Python `str.count` and the `in` operator -/

/-- Non-overlapping substring count over character lists: the model of Python
`str.count`.  Scans left to right; after a match, continues after the matched
block.  An empty pattern counts as zero occurrences (the source never counts
an empty pattern). -/
def countOccs (pat : List Char) (s : List Char) : Nat :=
  if pat.isEmpty then 0
  else
    match s with
    | [] => 0
    | c :: rest =>
      if pat.isPrefixOf (c :: rest) then
        1 + countOccs pat (rest.drop (pat.length - 1))
      else
        countOccs pat rest
termination_by s.length
decreasing_by
  · simp only [List.length_cons, List.length_drop]
    omega
  · simp only [List.length_cons]
    omega

/-- Python `text.count(pat)`. -/
def strCount (text pat : String) : Nat :=
  countOccs pat.toList text.toList

/-- Substring test on character lists: `pat` occurs contiguously in `s`. -/
def isSubList (pat : List Char) : List Char → Bool
  | [] => pat.isEmpty
  | c :: rest => pat.isPrefixOf (c :: rest) || isSubList pat rest

/-- Python `pat in text` (substring containment). -/
def containsSub (text pat : String) : Bool :=
  isSubList pat.toList text.toList

/-! ### Data model

The dataclasses of `content_analyzer.py` and `script_generator.py`.
Python `float` fields are modelled as `ℚ`, `int` fields as `ℤ` (or `ℕ` where
the value is a length), `Optional[T]` as `Option T`. -/

/-- `content_analyzer.py` lines 15–35: dataclass `ContentInfo`. -/
structure ContentInfo where
  title : String
  original_title : String
  overview : String
  release_date : String
  genre : List String
  rating : ℚ
  popularity : ℚ
  poster_url : String
  backdrop_url : String
  trailer_url : Option String
  platform : String
  content_type : String
  duration : Option ℤ
  cast : List String
  director : List String
  keywords : List String
  language : String
  country : String
deriving Repr, DecidableEq

/-- `script_generator.py` lines 15–23: dataclass `ScriptSection`. -/
structure ScriptSection where
  type : String
  content : String
  duration_seconds : ℤ
  visual_cues : List String
  emotion : String
  emphasis_words : List String
deriving Repr, DecidableEq

/-- `script_generator.py` lines 25–38: dataclass `GeneratedScript`. -/
structure GeneratedScript where
  title : String
  content : ContentInfo
  sections : List ScriptSection
  total_duration : ℤ
  word_count : ℤ
  target_platform : String
  hashtags : List String
  title_suggestions : List String
  visual_style : String
  music_suggestion : String
  raw_text : String
deriving Repr, DecidableEq

/-- `ai_optimizer.py` lines 69–76: dataclass `AudioAnalysis`. -/
structure AudioAnalysis where
  volume_consistency : ℚ
  speech_clarity : ℚ
  music_balance : ℚ
  silence_analysis : List (ℚ × ℚ)
  recommended_adjustments : List String
deriving Repr, DecidableEq

/-- `ai_optimizer.py` lines 38–49: dataclass `OptimizationAnalysis`. -/
structure OptimizationAnalysis where
  content_score : ℚ
  engagement_potential : ℚ
  viral_probability : ℚ
  seo_score : ℚ
  visual_impact : ℚ
  audio_quality : ℚ
  overall_score : ℚ
  recommendations : List String
  improvements : List String
deriving Repr, DecidableEq

/-- The regex engine of the Python `re` library, which is external to the
repository: `findall_count pat text` models `len(re.findall(pat, text, ...))`
and is therefore an arbitrary natural-number-valued oracle. -/
structure ReEnv where
  findall_count : String → String → ℕ

/-! ### `ai_optimizer.py` — the `AIOptimizer` heuristics -/

/-- `ai_optimizer.py` lines 395–399: the fixed emotional-word list of
`_count_emotional_words`. -/
def emotionalWords : List String :=
  ["increíble", "espectacular", "impresionante", "sorprendente",
   "emocionante", "intenso", "dramático", "épico", "genial",
   "fantástico", "excelente", "maravilloso", "asombroso"]

/-- `AIOptimizer._count_emotional_words` (`ai_optimizer.py` lines 393–406):
lowercases the text and sums `text_lower.count(word)` over the word list. -/
def countEmotionalWords (text : String) : ℕ :=
  (emotionalWords.map (fun word => strCount text.toLower word)).sum

/-- `ai_optimizer.py` lines 410–416: the regex pattern list of
`_analyze_hooks`. -/
def hookPatterns : List String :=
  ["¿.*\\?", "¡.*!",
   "(nunca|siempre|definitivamente|absolutamente)",
   "(descubre|conoce|aprende|mira)",
   "(spoiler|revelación|sorpresa)"]

/-- `AIOptimizer._analyze_hooks` (`ai_optimizer.py` lines 408–422): sums
`len(re.findall(pattern, raw_text, re.IGNORECASE))` over the patterns; the
`re` engine is the oracle `env.findall_count`. -/
def analyzeHooks (env : ReEnv) (script : GeneratedScript) : ℕ :=
  (hookPatterns.map (fun pattern => env.findall_count pattern script.raw_text)).sum

/-- `ai_optimizer.py` lines 427–430: the trending-keyword list of
`_analyze_trending_keywords`. -/
def trendingKeywords : List String :=
  ["netflix", "disney", "marvel", "dc", "streaming",
   "película", "serie", "tráiler", "estreno", "nuevo"]

/-- `AIOptimizer._analyze_trending_keywords` (`ai_optimizer.py` lines
424–435): the fraction of trending keywords occurring in the lowercased
text, capped at `1.0`. -/
def analyzeTrendingKeywords (text : String) : ℚ :=
  let found_keywords := (trendingKeywords.filter
    (fun keyword => containsSub text.toLower keyword)).length
  min ((found_keywords : ℚ) / (trendingKeywords.length : ℚ)) 1

/-- `ai_optimizer.py` lines 440–443: the controversy-word list. -/
def controversyWords : List String :=
  ["polémico", "debate", "discutido", "controversial",
   "divisivo", "opinión", "crítico", "revisión"]

/-- `AIOptimizer._analyze_controversy_potential` (`ai_optimizer.py` lines
437–448): the number of controversy words in the lowercased script text,
divided by 5 and capped at `1.0` (the `content_info` argument is unused). -/
def analyzeControversyPotential (script : GeneratedScript)
    (_content_info : ContentInfo) : ℚ :=
  let controversy_count := (controversyWords.filter
    (fun word => containsSub script.raw_text.toLower word)).length
  min ((controversy_count : ℚ) / 5) 1

/-- `ai_optimizer.py` lines 452–455: the shareability-indicator list. -/
def shareabilityIndicators : List String :=
  ["comparte", "compartir", "viral", "tendencia",
   "recomienda", "recomendación", "debe ver", "no te pierdas"]

/-- `AIOptimizer._analyze_shareability` (`ai_optimizer.py` lines 450–460):
the number of shareability indicators in the lowercased script text,
divided by 3 and capped at `1.0`. -/
def analyzeShareability (script : GeneratedScript) : ℚ :=
  let shareability_count := (shareabilityIndicators.filter
    (fun indicator => containsSub script.raw_text.toLower indicator)).length
  min ((shareability_count : ℚ) / 3) 1

/-- `AIOptimizer._analyze_timing_relevance` (`ai_optimizer.py` lines
462–479).  `daysOld` is `(datetime.now() - release_date).days`, an external
quantity; `none` models the `except` branch (the release date fails to
parse), which returns `0.5`. -/
def analyzeTimingRelevance (daysOld : Option ℤ) : ℚ :=
  match daysOld with
  | none => 0.5
  | some days_old =>
    if days_old ≤ 30 then 1.0
    else if days_old ≤ 90 then 0.8
    else if days_old ≤ 365 then 0.6
    else 0.4

/-- `AIOptimizer._analyze_content_quality` (`ai_optimizer.py` lines
186–230): word-count, section-count and duration band scores plus
popularity and rating contributions, capped at 100. -/
def analyzeContentQuality (script : GeneratedScript)
    (content_info : ContentInfo) : ℚ :=
  let word_count := script.word_count
  let wordScore : ℚ :=
    if 100 ≤ word_count ∧ word_count ≤ 500 then 20
    else if 50 ≤ word_count ∧ word_count ≤ 800 then 15
    else 10
  let section_count := script.sections.length
  let sectionScore : ℚ :=
    if 3 ≤ section_count ∧ section_count ≤ 6 then 20
    else if 2 ≤ section_count ∧ section_count ≤ 8 then 15
    else 10
  let duration := script.total_duration
  let durationScore : ℚ :=
    if 60 ≤ duration ∧ duration ≤ 180 then 20
    else if 30 ≤ duration ∧ duration ≤ 240 then 15
    else 10
  let popularity_score := min (content_info.popularity / 100) 1 * 20
  let rating_score := content_info.rating / 10 * 20
  min 100 (wordScore + sectionScore + durationScore + popularity_score + rating_score)

/-- `AIOptimizer._analyze_engagement_potential` (`ai_optimizer.py` lines
232–262): emotional-word, interaction, hook and emotion-variety
contributions of 25 points each, capped at 100. -/
def analyzeEngagementPotential (env : ReEnv) (script : GeneratedScript) : ℚ :=
  let emotional_words := countEmotionalWords script.raw_text
  let emotional_score := min ((emotional_words : ℚ) / 10) 1 * 25
  let questions := env.findall_count "\\?" script.raw_text
  let ctas := env.findall_count "(suscríbete|comenta|like|comparte)" script.raw_text
  let interaction_score := min (((questions : ℚ) + (ctas : ℚ)) / 5) 1 * 25
  let hooks := analyzeHooks env script
  let hook_score := min ((hooks : ℚ) / 3) 1 * 25
  let emotion_variety := ((script.sections.map (fun s => s.emotion)).dedup).length
  let variety_score := min ((emotion_variety : ℚ) / 4) 1 * 25
  min 100 (emotional_score + interaction_score + hook_score + variety_score)

/-- `AIOptimizer._analyze_viral_potential` (`ai_optimizer.py` lines
264–289): trending, controversy, shareability and timing factors weighted
30/20/25/25, capped at 100. -/
def analyzeViralPotential (script : GeneratedScript)
    (content_info : ContentInfo) (daysOld : Option ℤ) : ℚ :=
  let trending_score := analyzeTrendingKeywords script.raw_text
  let controversy_score := analyzeControversyPotential script content_info
  let shareability_score := analyzeShareability script
  let timing_score := analyzeTimingRelevance daysOld
  min 100 (trending_score * 30 + controversy_score * 20 +
    shareability_score * 25 + timing_score * 25)

/-- The `seo_analysis.get('overall_score', 0.0)` lookup used at
`ai_optimizer.py` lines 174 and 629: the SEO analysis dict is modelled as an
association list. -/
def seoOverallScore (seo_analysis : List (String × ℚ)) : ℚ :=
  (List.lookup "overall_score" seo_analysis).getD 0

/-- `AIOptimizer._calculate_overall_score` (`ai_optimizer.py` lines
616–641): weighted sum of the six component scores with weights
0.25/0.25/0.20/0.15/0.10/0.05, capped at 100; the audio component is the
mean of volume consistency and speech clarity. -/
def calculateOverallScore (content_score engagement_potential
    viral_probability : ℚ) (seo_analysis : List (String × ℚ))
    (visual_impact : ℚ) (audio_analysis : AudioAnalysis) : ℚ :=
  let seo_score := seoOverallScore seo_analysis
  let audio_score := (audio_analysis.volume_consistency +
    audio_analysis.speech_clarity) / 2
  min 100 (content_score * 0.25 + engagement_potential * 0.25 +
    viral_probability * 0.20 + seo_score * 0.15 +
    visual_impact * 0.10 + audio_score * 0.05)

/-- `AIOptimizer._create_fallback_analysis` (`ai_optimizer.py` lines
711–723): the hardcoded analysis returned when `optimize_content` catches
an exception. -/
def createFallbackAnalysis : OptimizationAnalysis :=
  { content_score := 50.0
    engagement_potential := 50.0
    viral_probability := 50.0
    seo_score := 50.0
    visual_impact := 50.0
    audio_quality := 50.0
    overall_score := 50.0
    recommendations := ["Revisar configuración de IA", "Verificar calidad del contenido"]
    improvements := ["Optimizar configuración", "Mejorar calidad general"] }

/-- The `try` body of `AIOptimizer.optimize_content` (`ai_optimizer.py`
lines 130–180).  Each internal analysis step is a call that may raise, so
each is an `Except String`-valued oracle; the steps are sequenced in source
order and any raise aborts the body with that exception.  `video_path`
selects the `visual_impact` branch of lines 144–148 (`0.0` when there is no
video). -/
def optimizeContentBody (content_quality engagement viral : Except String ℚ)
    (seo : Except String (List (String × ℚ))) (video_path : Option String)
    (visual_composition : Except String ℚ)
    (audio : Except String AudioAnalysis)
    (recommendations improvements : Except String (List String)) :
    Except String OptimizationAnalysis := do
  let content_score ← content_quality
  let engagement_potential ← engagement
  let viral_probability ← viral
  let seo_analysis ← seo
  let visual_impact ←
    match video_path with
    | some _ => visual_composition
    | none => pure (0.0 : ℚ)
  let audio_analysis ← audio
  let overall_score := calculateOverallScore content_score
    engagement_potential viral_probability seo_analysis visual_impact
    audio_analysis
  let recs ← recommendations
  let imps ← improvements
  pure { content_score := content_score
         engagement_potential := engagement_potential
         viral_probability := viral_probability
         seo_score := seoOverallScore seo_analysis
         visual_impact := visual_impact
         audio_quality := audio_analysis.volume_consistency
         overall_score := overall_score
         recommendations := recs
         improvements := imps }

/-- `AIOptimizer.optimize_content` (`ai_optimizer.py` lines 117–184): runs
the body and catches any exception, substituting the hardcoded fallback. -/
def optimizeContent (body : Except String OptimizationAnalysis) :
    OptimizationAnalysis :=
  match body with
  | .ok analysis => analysis
  | .error _ => createFallbackAnalysis

/-! ### `src/ai_optimizer.py` — the duplicated optimizer -/

/-- The overall score of `AIOptimizer.analyze_content_impact` in the
duplicated `src/ai_optimizer.py` (line 154): the unweighted mean of the four
component scores, each on a 0–1 scale. -/
def impactOverallScore (engagement_score viral_potential seo_score
    visual_appeal : ℚ) : ℚ :=
  (engagement_score + viral_potential + seo_score + visual_appeal) / 4

/-! ### `content_analyzer.py` — the `ContentAnalyzer` -/

/-- A raw TMDB result item; its JSON payload is opaque to this development. -/
structure TmdbItem where
  raw : String

/-- The TMDB network boundary of `content_analyzer.py`.  Each HTTP request
may raise (`Except String`); `parse_content` models
`_parse_tmdb_content` (lines 146–175), which catches internally and returns
`None` on failure, hence `Option`. -/
structure TmdbEnv where
  trending_api : String → String → Except String (List TmdbItem)
  search_movie_api : String → Except String (List TmdbItem)
  search_tv_api : String → Except String (List TmdbItem)
  parse_content : TmdbItem → String → Option ContentInfo

/-- `ContentAnalyzer.get_trending_content` (`content_analyzer.py` lines
46–76): fetches the trending endpoint, parses each result item, and catches
any exception by returning the empty list. -/
def getTrendingContent (env : TmdbEnv) (time_window content_type : String) :
    List ContentInfo :=
  match env.trending_api content_type time_window with
  | .error _ => []
  | .ok items => items.filterMap (fun item => env.parse_content item content_type)

/-- `ContentAnalyzer._search_movies` (`content_analyzer.py` lines 102–122):
no internal `try`, so an API exception propagates to the caller. -/
def searchMovies (env : TmdbEnv) (query : String) :
    Except String (List ContentInfo) := do
  let items ← env.search_movie_api query
  pure (items.filterMap (fun item => env.parse_content item "movie"))

/-- `ContentAnalyzer._search_tv_shows` (`content_analyzer.py` lines
124–144): no internal `try`, so an API exception propagates. -/
def searchTvShows (env : TmdbEnv) (query : String) :
    Except String (List ContentInfo) := do
  let items ← env.search_tv_api query
  pure (items.filterMap (fun item => env.parse_content item "tv"))

/-- `ContentAnalyzer.search_content` (`content_analyzer.py` lines 78–100):
dispatches on `content_type` and catches any exception from the searches by
returning the empty list. -/
def searchContent (env : TmdbEnv) (query content_type : String) :
    List ContentInfo :=
  let body : Except String (List ContentInfo) :=
    if content_type = "all" then do
      let movie_results ← searchMovies env query
      let tv_results ← searchTvShows env query
      pure (movie_results ++ tv_results)
    else if content_type = "movie" then searchMovies env query
    else if content_type = "tv" then searchTvShows env query
    else pure []
  match body with
  | .ok results => results
  | .error _ => []

/-- The sort key of `ContentAnalyzer.get_content_for_analysis`
(`content_analyzer.py` line 286): `x.popularity * x.rating`. -/
def contentKey (x : ContentInfo) : ℚ :=
  x.popularity * x.rating

/-- `ContentAnalyzer.get_content_for_analysis` (`content_analyzer.py` lines
272–288): takes `limit//2` trending movies and `limit//2` trending TV
shows, sorts the combined list by `popularity * rating` descending (Python
`list.sort(key=..., reverse=True)` is a stable sort), and returns the first
`limit` entries. -/
def getContentForAnalysis (env : TmdbEnv) (limit : ℕ) : List ContentInfo :=
  let movies := (getTrendingContent env "week" "movie").take (limit / 2)
  let tv_shows := (getTrendingContent env "week" "tv").take (limit / 2)
  let all_content := movies ++ tv_shows
  let sorted := all_content.mergeSort
    (fun a b => decide (contentKey b ≤ contentKey a))
  sorted.take limit

/-! #### Rounding

`analyze_content_viability` rounds the score with Python `round(score, 2)`,
which rounds to the nearest multiple of `1/100` with ties going to the even
hundredth. -/

/-- Round to the nearest integer, ties to even: the model of Python
`round` on an exact value. -/
def roundHalfEven (q : ℚ) : ℤ :=
  let f := Int.floor q
  let r := q - (f : ℚ)
  if r < 1/2 then f
  else if 1/2 < r then f + 1
  else if f % 2 = 0 then f else f + 1

/-- Python `round(q, 2)`. -/
def round2 (q : ℚ) : ℚ :=
  ((roundHalfEven (100 * q) : ℤ) : ℚ) / 100

/-- `content_analyzer.py` line 321: the high-impact genre list. -/
def highImpactGenres : List String :=
  ["Acción", "Ciencia Ficción", "Terror", "Suspenso", "Aventura"]

/-- The raw (unrounded) viability score accumulated by
`ContentAnalyzer.analyze_content_viability` (`content_analyzer.py` lines
297–324): popularity (0–30), rating (0–25), trailer availability (0 or 20),
overview quality (0–15) and genre impact (5 or 10). -/
def viabilityScore (content : ContentInfo) : ℚ :=
  min (content.popularity / 100) 1 * 30 +
  content.rating / 10 * 25 +
  (if content.trailer_url.isSome then 20 else 0) +
  min ((content.overview.length : ℚ) / 200) 1 * 15 +
  (if content.genre.any (fun genre => highImpactGenres.contains genre)
   then 10 else 5)

/-- The classification of `content_analyzer.py` lines 326–334, applied to
the raw score. -/
def viabilityLabel (score : ℚ) : String :=
  if 80 ≤ score then "Excelente"
  else if 60 ≤ score then "Buena"
  else if 40 ≤ score then "Regular"
  else "Baja"

/-- The result dict of `analyze_content_viability`. -/
structure ViabilityReport where
  total_score : ℚ
  viability : String
  factors : List (String × ℚ)
  recommendations : List String
deriving Repr, DecidableEq

/-- `ContentAnalyzer._get_recommendations` (`content_analyzer.py` lines
343–359). -/
def viabilityRecommendations (score : ℚ) (content : ContentInfo) :
    List String :=
  (if score < 40 then ["Considera buscar contenido más popular o reciente"] else []) ++
  (if content.trailer_url.isNone then ["Busca tráileres alternativos o clips oficiales"] else []) ++
  (if content.overview.length < 100 then ["Investiga más detalles de la trama"] else []) ++
  (if ¬ content.genre.any (fun genre =>
      (["Acción", "Ciencia Ficción", "Terror", "Suspenso"] : List String).contains genre)
   then ["Enfócate en aspectos emocionales o dramáticos"] else [])

/-- `ContentAnalyzer.analyze_content_viability` (`content_analyzer.py` lines
290–341): `total_score` is the raw score rounded to two decimals, while the
`viability` label is classified from the raw score. -/
def analyzeContentViability (content : ContentInfo) : ViabilityReport :=
  let score := viabilityScore content
  { total_score := round2 score
    viability := viabilityLabel score
    factors :=
      [("popularity", min (content.popularity / 100) 1 * 30),
       ("rating", content.rating / 10 * 25),
       ("trailer_available", if content.trailer_url.isSome then 20 else 0),
       ("overview_quality", min ((content.overview.length : ℚ) / 200) 1 * 15),
       ("genre_impact",
        if content.genre.any (fun genre => highImpactGenres.contains genre)
        then 10 else 5)]
    recommendations := viabilityRecommendations score content }

/-! ### `format_generator.py` — the `FormatGenerator` -/

/-- `format_generator.py` lines 27–38: dataclass `FormatSpec`. -/
structure FormatSpec where
  name : String
  width : ℕ
  height : ℕ
  aspect_ratio : String
  platform : String
  max_duration : ℕ
  recommended_fps : ℕ
  bitrate : String
  description : String
deriving Repr, DecidableEq

/-- `format_generator.py` lines 40–47: dataclass `GeneratedFormat`.  The
metadata dict is opaque here. -/
structure GeneratedFormat where
  format_type : String
  video_path : String
  thumbnail_path : String
  optimization_score : ℚ
deriving Repr, DecidableEq

/-- `FormatGenerator.formats` (`format_generator.py` lines 57–124): the
fixed table of the six platform formats, in insertion order. -/
def formats : List (String × FormatSpec) :=
  [("youtube",
    { name := "YouTube", width := 1920, height := 1080,
      aspect_ratio := "16:9", platform := "youtube", max_duration := 180,
      recommended_fps := 24, bitrate := "5000k",
      description := "Formato estándar para YouTube, optimizado para desktop y TV" }),
   ("tiktok",
    { name := "TikTok", width := 1080, height := 1920,
      aspect_ratio := "9:16", platform := "tiktok", max_duration := 60,
      recommended_fps := 30, bitrate := "3000k",
      description := "Formato vertical para TikTok, optimizado para móviles" }),
   ("instagram_reels",
    { name := "Instagram Reels", width := 1080, height := 1920,
      aspect_ratio := "9:16", platform := "instagram", max_duration := 90,
      recommended_fps := 30, bitrate := "3000k",
      description := "Formato vertical para Instagram Reels" }),
   ("instagram_square",
    { name := "Instagram Square", width := 1080, height := 1080,
      aspect_ratio := "1:1", platform := "instagram", max_duration := 60,
      recommended_fps := 30, bitrate := "2500k",
      description := "Formato cuadrado para Instagram posts" }),
   ("facebook",
    { name := "Facebook", width := 1920, height := 1080,
      aspect_ratio := "16:9", platform := "facebook", max_duration := 240,
      recommended_fps := 24, bitrate := "4000k",
      description := "Formato para Facebook videos" }),
   ("twitter",
    { name := "Twitter", width := 1280, height := 720,
      aspect_ratio := "16:9", platform := "twitter", max_duration := 140,
      recommended_fps := 30, bitrate := "2000k",
      description := "Formato para Twitter videos" })]

/-- The `width:height` ratio in lowest terms, rendered as the
`"W:H"` strings used by the `aspect_ratio` fields. -/
def ratioString (w h : ℕ) : String :=
  let g := Nat.gcd w h
  toString (w / g) ++ ":" ++ toString (h / g)

/-- `FormatGenerator.generate_all_formats` (`format_generator.py` lines
126–158): iterates over the full format table for one source video,
attempting `_generate_single_format` on each entry; an exception for one
format is caught and the loop continues.  `gen` is the
`_generate_single_format` oracle (its media processing is external):
`none` models both an exception and a `None` result.  The second component
records which formats were attempted, in order. -/
def generateAllFormats (gen : String → FormatSpec → Option GeneratedFormat) :
    List GeneratedFormat × List String :=
  formats.foldl
    (fun acc p =>
      match gen p.1 p.2 with
      | some generated => (acc.1 ++ [generated], acc.2 ++ [p.1])
      | none => (acc.1, acc.2 ++ [p.1]))
    ([], [])

/-! ### `thumbnail_generator.py` — the thumbnail optimization score -/

/-- `ThumbnailGenerator._analyze_contrast` (`thumbnail_generator.py` lines
548–571).  The grayscale histogram statistics are computed by PIL/`math`
over image pixels; `stdDev` is the resulting standard deviation, an
external quantity, with `.error` modelling the `except` branch (which
returns `0.5`).  The function normalizes by 128 and caps at `1.0`. -/
def analyzeContrast (stdDev : Except String ℚ) : ℚ :=
  match stdDev with
  | .error _ => 0.5
  | .ok s => min (s / 128) 1

/-- `ThumbnailGenerator._analyze_text_readability` (`thumbnail_generator.py`
lines 573–599).  `avgGradient` is the numpy mean-gradient statistic of the
grayscale image; `.error` models the `except` branch (`0.5`).  Normalizes
by 50 and caps at `1.0`. -/
def analyzeTextReadability (avgGradient : Except String ℚ) : ℚ :=
  match avgGradient with
  | .error _ => 0.5
  | .ok g => min (g / 50) 1

/-- One entry of `Image.getcolors`: a pixel count and an RGB triple. -/
def ColorCount : Type := ℕ × (ℤ × ℤ × ℤ)

/-- `ThumbnailGenerator._analyze_composition` (`thumbnail_generator.py`
lines 601–625).  `colors` is the `Image.getcolors` result (`none` when the
color count exceeds `maxcolors`); an empty or missing list is falsy in
Python, giving `0.5`; otherwise the color diversity `len(colors)/1000`
capped at `1.0`.  `.error` models the `except` branch (`0.5`). -/
def analyzeCompositionThumb (colors : Except String (Option (List ColorCount))) : ℚ :=
  match colors with
  | .error _ => 0.5
  | .ok none => 0.5
  | .ok (some cs) =>
    if cs.isEmpty then 0.5
    else min ((cs.length : ℚ) / 1000) 1

/-- `thumbnail_generator.py` lines 637–641: the Cine Norte brand colors. -/
def brandColors : List (ℤ × ℤ × ℤ) :=
  [(229, 9, 20), (192, 192, 192), (10, 10, 10)]

/-- `thumbnail_generator.py` line 649: a pixel color is a brand pixel when
some brand color is within tolerance 30 on every channel. -/
def isBrandColor (c : ℤ × ℤ × ℤ) : Bool :=
  brandColors.any (fun bc =>
    |c.1 - bc.1| < 30 ∧ |c.2.1 - bc.2.1| < 30 ∧ |c.2.2 - bc.2.2| < 30)

/-- `ThumbnailGenerator._analyze_branding_presence`
(`thumbnail_generator.py` lines 627–657): a missing or empty color list is
falsy and yields `0.0`; otherwise the brand-pixel fraction times 10, capped
at `1.0`.  A zero total pixel count would raise `ZeroDivisionError` in
Python, landing in the `except` branch (`0.5`); `.error` also models an
exception from `getcolors` itself. -/
def analyzeBrandingPresence (colors : Except String (Option (List ColorCount))) : ℚ :=
  match colors with
  | .error _ => 0.5
  | .ok none => 0.0
  | .ok (some cs) =>
    if cs.isEmpty then 0.0
    else
      let total_pixels : ℕ := (cs.map (fun p => p.1)).sum
      if total_pixels = 0 then 0.5
      else
        let brand_pixel_count : ℕ :=
          ((cs.filter (fun p => isBrandColor p.2)).map (fun p => p.1)).sum
        min ((brand_pixel_count : ℚ) / (total_pixels : ℚ) * 10) 1

/-- The `try` body of `ThumbnailGenerator._calculate_optimization_score`
(`thumbnail_generator.py` lines 523–542): each sub-analysis contributes up
to 25 points and the total is capped at 100. -/
def calculateThumbnailScore (contrast_score readability_score
    composition_score branding_score : ℚ) : ℚ :=
  min 100 (contrast_score * 25 + readability_score * 25 +
    composition_score * 25 + branding_score * 25)

/-- `ThumbnailGenerator._calculate_optimization_score`
(`thumbnail_generator.py` lines 520–546): computes the four sub-analyses
over the image and combines them; `bodyError` models an exception raised in
the body itself, caught at lines 544–546 with the hardcoded `50.0`. -/
def calculateOptimizationScore (stdDev avgGradient : Except String ℚ)
    (colors : Except String (Option (List ColorCount)))
    (bodyError : Option String) : ℚ :=
  match bodyError with
  | some _ => 50.0
  | none =>
    calculateThumbnailScore (analyzeContrast stdDev)
      (analyzeTextReadability avgGradient)
      (analyzeCompositionThumb colors)
      (analyzeBrandingPresence colors)

/-! ### `main.py` — the `CineNorteSystem.generate_content` pipeline -/

/-- The stages of `CineNorteSystem.generate_content` (`main.py` lines
64–116), one constructor per numbered step of the source. -/
inductive Stage where
  | select
  | script
  | voice
  | subtitles
  | videoProject
  | formatsExport
  | thumbnails
  | impact
  | seo
  | writes
deriving Repr, DecidableEq

/-- The canonical stage order of `generate_content`: steps 1–10 of
`main.py` lines 67–116 (the file writes of steps 10 are one stage). -/
def pipelineStages : List Stage :=
  [Stage.select, Stage.script, Stage.voice, Stage.subtitles,
   Stage.videoProject, Stage.formatsExport, Stage.thumbnails,
   Stage.impact, Stage.seo, Stage.writes]

/-- `CineNorteSystem.generate_content` (`main.py` lines 64–156), with each
collaborator call an oracle.  `selectC` is `_select_content` (which catches
internally and returns `None`; a `None` result raises at line 70, caught by
the outer handler).  Every other stage is a call that may raise; the whole
body is wrapped in `try/except`, so the function always returns (`.ok` the
results or `.error` the message).  The second component is the trace of
stages the invocation executed, in order.  Payload types are abstract: the
claim is about control flow, not the marshalled data. -/
def generateContent {C S V U P F T I D W : Type}
    (selectC : Option C)
    (genScript : C → Except String S)
    (genVoice : S → Except String V)
    (genSubtitles : V → S → Except String U)
    (createProject : S → Except String P)
    (genFormats : P → Except String F)
    (genThumbnails : P → Except String T)
    (analyzeImpact : P → Except String I)
    (genSeoData : S → Except String D)
    (saveFiles : S → U → I → Except String W) :
    Except String Unit × List Stage :=
  match selectC with
  | none => (.error "No se pudo seleccionar contenido", [Stage.select])
  | some content =>
    match genScript content with
    | .error e => (.error e, [Stage.select, Stage.script])
    | .ok script =>
      match genVoice script with
      | .error e => (.error e, [Stage.select, Stage.script, Stage.voice])
      | .ok voice_path =>
        match genSubtitles voice_path script with
        | .error e => (.error e,
            [Stage.select, Stage.script, Stage.voice, Stage.subtitles])
        | .ok subtitles =>
          match createProject script with
          | .error e => (.error e,
              [Stage.select, Stage.script, Stage.voice, Stage.subtitles,
               Stage.videoProject])
          | .ok video_project =>
            match genFormats video_project with
            | .error e => (.error e,
                [Stage.select, Stage.script, Stage.voice, Stage.subtitles,
                 Stage.videoProject, Stage.formatsExport])
            | .ok _video_paths =>
              match genThumbnails video_project with
              | .error e => (.error e,
                  [Stage.select, Stage.script, Stage.voice, Stage.subtitles,
                   Stage.videoProject, Stage.formatsExport, Stage.thumbnails])
              | .ok _thumbnail_paths =>
                match analyzeImpact video_project with
                | .error e => (.error e,
                    [Stage.select, Stage.script, Stage.voice, Stage.subtitles,
                     Stage.videoProject, Stage.formatsExport, Stage.thumbnails,
                     Stage.impact])
                | .ok impact_analysis =>
                  match genSeoData script with
                  | .error e => (.error e,
                      [Stage.select, Stage.script, Stage.voice, Stage.subtitles,
                       Stage.videoProject, Stage.formatsExport, Stage.thumbnails,
                       Stage.impact, Stage.seo])
                  | .ok _seo_data =>
                    match saveFiles script subtitles impact_analysis with
                    | .error e => (.error e, pipelineStages)
                    | .ok _ => (.ok (), pipelineStages)

/-! ### Concrete inputs used by witnesses and counterexamples -/

/-- A concrete catalog entry. -/
def exampleContent : ContentInfo :=
  { title := "Dune", original_title := "Dune",
    overview := "Una épica de ciencia ficción en el desierto",
    release_date := "2024-03-01", genre := ["Ciencia Ficción"],
    rating := 8.5, popularity := 250,
    poster_url := "", backdrop_url := "",
    trailer_url := some "https://www.youtube.com/watch?v=x",
    platform := "Múltiples plataformas", content_type := "movie",
    duration := some 155, cast := [], director := [], keywords := [],
    language := "es", country := "US" }

/-- A concrete generated script over `exampleContent`. -/
def exampleScript : GeneratedScript :=
  { title := "Dune — análisis", content := exampleContent,
    sections := [], total_duration := 120, word_count := 250,
    target_platform := "youtube", hashtags := [], title_suggestions := [],
    visual_style := "", music_suggestion := "",
    raw_text := "¡Una película increíble! ¿La has visto?" }

/-- A concrete audio analysis. -/
def exampleAudio : AudioAnalysis :=
  { volume_consistency := 75, speech_clarity := 80, music_balance := 70,
    silence_analysis := [], recommended_adjustments := [] }

/-- A regex oracle that finds no matches. -/
def exampleReEnv : ReEnv :=
  { findall_count := fun _ _ => 0 }

/-- A catalog entry whose raw viability score is `79.996`: popularity 100
(→ 30 points), rating `1.9984` (→ 4.996 points), a trailer (→ 20 points),
a 200-character overview (→ 15 points) and a high-impact genre
(→ 10 points).  Rounding `79.996` to two decimals crosses the `80`
threshold. -/
def roundingBoundaryContent : ContentInfo :=
  { title := "Frontera", original_title := "Frontera",
    overview := String.mk (List.replicate 200 'a'),
    release_date := "2024-01-01", genre := ["Acción"],
    rating := 1.9984, popularity := 100,
    poster_url := "", backdrop_url := "",
    trailer_url := some "https://www.youtube.com/watch?v=t",
    platform := "Netflix", content_type := "movie", duration := some 120,
    cast := [], director := [], keywords := [], language := "es",
    country := "MX" }

/-! ## Helper lemmas -/

theorem clip01_nonneg {x : ℚ} (hx : 0 ≤ x) : 0 ≤ min x 1 :=
  le_min hx zero_le_one

theorem clip01_le_one (x : ℚ) : min x 1 ≤ 1 :=
  min_le_right x 1

theorem cap100_nonneg {s : ℚ} (hs : 0 ≤ s) : 0 ≤ min 100 s :=
  le_min (by norm_num) hs

theorem cap100_le (s : ℚ) : min 100 s ≤ 100 :=
  min_le_left 100 s

theorem floor_le_roundHalfEven (x : ℚ) : Int.floor x ≤ roundHalfEven x := by
  rw [roundHalfEven]
  split_ifs <;> omega

theorem roundHalfEven_le_floor_add_one (x : ℚ) :
    roundHalfEven x ≤ Int.floor x + 1 := by
  rw [roundHalfEven]
  split_ifs <;> omega

theorem roundHalfEven_mono {x y : ℚ} (h : x ≤ y) :
    roundHalfEven x ≤ roundHalfEven y := by
  have hf : Int.floor x ≤ Int.floor y := Int.floor_mono h
  rcases eq_or_lt_of_le hf with heq | hlt
  · have hfrac : x - (Int.floor x : ℚ) ≤ y - (Int.floor y : ℚ) := by
      rw [← heq]
      linarith
    rw [roundHalfEven, roundHalfEven]
    rw [← heq] at *
    split_ifs <;> first | omega | linarith
  · calc roundHalfEven x ≤ Int.floor x + 1 := roundHalfEven_le_floor_add_one x
      _ ≤ Int.floor y := by omega
      _ ≤ roundHalfEven y := floor_le_roundHalfEven y

theorem round2_mono {x y : ℚ} (h : x ≤ y) : round2 x ≤ round2 y := by
  rw [round2, round2]
  have h1 : roundHalfEven (100 * x) ≤ roundHalfEven (100 * y) :=
    roundHalfEven_mono (by linarith)
  have h2 : ((roundHalfEven (100 * x) : ℤ) : ℚ) ≤
      ((roundHalfEven (100 * y) : ℤ) : ℚ) := by exact_mod_cast h1
  linarith

/-! ## Claims -/

/-- **C3.** `AIOptimizer._calculate_overall_score` is exactly the weighted
sum `content*0.25 + engagement*0.25 + viral*0.20 + seo*0.15 + visual*0.10 +
((volume_consistency + speech_clarity)/2)*0.05`, capped at 100, where the
SEO score is the `overall_score` entry of the SEO analysis dict and `0.0`
when absent.  The embedded function is a pure function of its six
arguments — it consults no model or external state. -/
theorem calculateOverallScore_spec (content_score engagement_potential
    viral_probability : ℚ) (seo_analysis : List (String × ℚ))
    (visual_impact : ℚ) (audio_analysis : AudioAnalysis) :
    calculateOverallScore content_score engagement_potential
        viral_probability seo_analysis visual_impact audio_analysis =
      min 100 (content_score * 0.25 + engagement_potential * 0.25 +
        viral_probability * 0.20 +
        ((List.lookup "overall_score" seo_analysis).getD 0) * 0.15 +
        visual_impact * 0.10 +
        ((audio_analysis.volume_consistency + audio_analysis.speech_clarity) / 2) * 0.05) ∧
    seoOverallScore [] = 0 ∧
    (∀ (v : ℚ) (rest : List (String × ℚ)),
      seoOverallScore (("overall_score", v) :: rest) = v) := by
  refine ⟨rfl, rfl, fun v rest => ?_⟩
  simp [seoOverallScore, List.lookup]

/-- **C2.** If any internal analysis step of `AIOptimizer.optimize_content`
raises, the exception is not propagated: the method returns the hardcoded
fallback `OptimizationAnalysis` whose seven numeric fields all equal
`50.0`. -/
theorem optimizeContent_fallback_on_error
    (content_quality engagement viral : Except String ℚ)
    (seo : Except String (List (String × ℚ))) (video_path : Option String)
    (visual_composition : Except String ℚ)
    (audio : Except String AudioAnalysis)
    (recommendations improvements : Except String (List String)) (e : String)
    (h : optimizeContentBody content_quality engagement viral seo video_path
          visual_composition audio recommendations improvements = .error e) :
    optimizeContent (optimizeContentBody content_quality engagement viral
        seo video_path visual_composition audio recommendations improvements) =
      createFallbackAnalysis ∧
    createFallbackAnalysis.content_score = 50 ∧
    createFallbackAnalysis.engagement_potential = 50 ∧
    createFallbackAnalysis.viral_probability = 50 ∧
    createFallbackAnalysis.seo_score = 50 ∧
    createFallbackAnalysis.visual_impact = 50 ∧
    createFallbackAnalysis.audio_quality = 50 ∧
    createFallbackAnalysis.overall_score = 50 := by
  rw [h]
  refine ⟨rfl, ?_, ?_, ?_, ?_, ?_, ?_, ?_⟩ <;> norm_num [createFallbackAnalysis]

/-- Witness for C2: with the first analysis step raising, the method
returns the all-50 fallback. -/
theorem optimizeContent_fallback_on_error_witness :
    optimizeContent (optimizeContentBody (.error "Error analizando calidad")
        (pure 0) (pure 0) (pure []) none (pure 0)
        (pure { volume_consistency := 0, speech_clarity := 0,
                music_balance := 0, silence_analysis := [],
                recommended_adjustments := [] }) (pure []) (pure [])) =
      createFallbackAnalysis ∧
    createFallbackAnalysis.content_score = 50 ∧
    createFallbackAnalysis.engagement_potential = 50 ∧
    createFallbackAnalysis.viral_probability = 50 ∧
    createFallbackAnalysis.seo_score = 50 ∧
    createFallbackAnalysis.visual_impact = 50 ∧
    createFallbackAnalysis.audio_quality = 50 ∧
    createFallbackAnalysis.overall_score = 50 :=
  optimizeContent_fallback_on_error (.error "Error analizando calidad")
    (pure 0) (pure 0) (pure []) none (pure 0)
    (pure { volume_consistency := 0, speech_clarity := 0, music_balance := 0,
            silence_analysis := [], recommended_adjustments := [] })
    (pure []) (pure []) "Error analizando calidad" rfl

/-- **C5.** The export table has exactly the six platform formats with the
claimed dimensions and aspect-ratio strings; for each `FormatSpec` the
`width:height` ratio in lowest terms equals the declared `aspect_ratio`;
and `generate_all_formats` attempts every format of the table regardless of
per-format failures. -/
theorem formats_table_spec :
    (formats.map (fun p => (p.1, p.2.name, p.2.width, p.2.height, p.2.aspect_ratio)) =
      [("youtube", "YouTube", 1920, 1080, "16:9"),
       ("tiktok", "TikTok", 1080, 1920, "9:16"),
       ("instagram_reels", "Instagram Reels", 1080, 1920, "9:16"),
       ("instagram_square", "Instagram Square", 1080, 1080, "1:1"),
       ("facebook", "Facebook", 1920, 1080, "16:9"),
       ("twitter", "Twitter", 1280, 720, "16:9")]) ∧
    (∀ p ∈ formats, ratioString p.2.width p.2.height = p.2.aspect_ratio) ∧
    (∀ gen : String → FormatSpec → Option GeneratedFormat,
      (generateAllFormats gen).2 = formats.map (fun p => p.1)) := by
  refine ⟨by decide, by decide, fun gen => ?_⟩
  have aux : ∀ (l : List (String × FormatSpec))
      (acc : List GeneratedFormat × List String),
      (l.foldl (fun acc p =>
        match gen p.1 p.2 with
        | some generated => (acc.1 ++ [generated], acc.2 ++ [p.1])
        | none => (acc.1, acc.2 ++ [p.1])) acc).2 =
        acc.2 ++ l.map (fun p => p.1) := by
    intro l
    induction l with
    | nil => intro acc; simp
    | cons p rest ih =>
      intro acc
      rcases hg : gen p.1 p.2 with _ | g <;>
        simp [List.foldl_cons, hg, ih]
  rw [generateAllFormats, aux]
  simp

/-- **C6 counterexample.** The two duplicated overall-score implementations
do not compute the same score on equivalent inputs: a content whose only
nonzero component is a full viral score receives 20 from
`ai_optimizer.py`'s weighted sum (weight 0.20) but 25 from
`src/ai_optimizer.py`'s unweighted mean (weight 1/4), after scaling the
0–1 mean to the 0–100 range. -/
theorem overallScore_implementations_disagree :
    calculateOverallScore 0 0 100 []
        0 { volume_consistency := 0, speech_clarity := 0, music_balance := 0,
            silence_analysis := [], recommended_adjustments := [] } = 20 ∧
    100 * impactOverallScore 0 1 0 0 = 25 ∧
    (20 : ℚ) ≠ 25 := by
  refine ⟨?_, ?_, by norm_num⟩ <;>
    norm_num [calculateOverallScore, impactOverallScore, seoOverallScore]

/-- **C6 (amended).** The two duplicated scoring implementations are
*different* heuristics: `AIOptimizer._calculate_overall_score`
(`ai_optimizer.py`) is the weighted sum with weights
0.25/0.25/0.20/0.15/0.10/0.05 capped at 100 over 0–100 components, while
`AIOptimizer.analyze_content_impact` (`src/ai_optimizer.py`) uses the
unweighted mean of its four 0–1 components; there are equivalent content
inputs (identical engagement/viral/SEO/visual assessments, scaled between
the 0–100 and 0–1 conventions) on which the two overall scores differ. -/
theorem overallScore_heuristics_differ :
    (∀ (c e v : ℚ) (seo : List (String × ℚ)) (vi : ℚ)
        (audio : AudioAnalysis),
      calculateOverallScore c e v seo vi audio =
        min 100 (c * 0.25 + e * 0.25 + v * 0.20 + seoOverallScore seo * 0.15 +
          vi * 0.10 +
          (audio.volume_consistency + audio.speech_clarity) / 2 * 0.05)) ∧
    (∀ e v s vis : ℚ,
      impactOverallScore e v s vis = (e + v + s + vis) / 4) ∧
    (∃ (c e v vi : ℚ) (seo : List (String × ℚ)) (audio : AudioAnalysis),
      calculateOverallScore c e v seo vi audio ≠
        100 * impactOverallScore (e / 100) (v / 100)
          (seoOverallScore seo / 100) (vi / 100)) := by
  refine ⟨fun _ _ _ _ _ _ => rfl, fun _ _ _ _ => rfl,
    ⟨0, 0, 100, 0, [],
     { volume_consistency := 0, speech_clarity := 0, music_balance := 0,
       silence_analysis := [], recommended_adjustments := [] }, ?_⟩⟩
  norm_num [calculateOverallScore, impactOverallScore, seoOverallScore]

/-- **C7.** `ContentAnalyzer.get_trending_content` and
`ContentAnalyzer.search_content` never propagate an exception: when the
underlying TMDB API calls raise, each returns the empty list. -/
theorem contentAnalyzer_error_fallbacks (env : TmdbEnv)
    (time_window content_type query e1 e2 e3 : String)
    (ht : env.trending_api content_type time_window = .error e1)
    (hm : env.search_movie_api query = .error e2)
    (hv : env.search_tv_api query = .error e3) :
    getTrendingContent env time_window content_type = [] ∧
    ∀ ct : String, searchContent env query ct = [] := by
  constructor
  · rw [getTrendingContent, ht]
  · intro ct
    rw [searchContent]
    simp only [searchMovies, searchTvShows, hm, hv]
    split_ifs <;> rfl

/-- Witness for C7: a concrete environment whose API calls all raise. -/
theorem contentAnalyzer_error_fallbacks_witness :
    getTrendingContent
        { trending_api := fun _ _ => .error "HTTPError",
          search_movie_api := fun _ => .error "HTTPError",
          search_tv_api := fun _ => .error "HTTPError",
          parse_content := fun _ _ => none } "week" "movie" = [] ∧
    ∀ ct : String, searchContent
        { trending_api := fun _ _ => .error "HTTPError",
          search_movie_api := fun _ => .error "HTTPError",
          search_tv_api := fun _ => .error "HTTPError",
          parse_content := fun _ _ => none } "Dune" ct = [] :=
  contentAnalyzer_error_fallbacks _ "week" "movie" "Dune"
    "HTTPError" "HTTPError" "HTTPError" rfl rfl rfl

/-- **C4.** `ThumbnailGenerator._calculate_optimization_score` returns
`min(100, 25*contrast + 25*readability + 25*composition + 25*branding)`
where each of the four sub-analyses — heuristics over image-pixel
statistics — returns a value in `[0, 1]` (given that the externally
computed standard-deviation and mean-gradient statistics are non-negative,
as `math.sqrt` and means of absolute gradients are), and it returns the
hardcoded `50.0` whenever the computation raises. -/
theorem thumbnailScore_spec (stdDev avgGradient : Except String ℚ)
    (colors : Except String (Option (List ColorCount)))
    (hs : ∀ s, stdDev = .ok s → 0 ≤ s)
    (hg : ∀ g, avgGradient = .ok g → 0 ≤ g) :
    (0 ≤ analyzeContrast stdDev ∧ analyzeContrast stdDev ≤ 1) ∧
    (0 ≤ analyzeTextReadability avgGradient ∧
      analyzeTextReadability avgGradient ≤ 1) ∧
    (0 ≤ analyzeCompositionThumb colors ∧ analyzeCompositionThumb colors ≤ 1) ∧
    (0 ≤ analyzeBrandingPresence colors ∧ analyzeBrandingPresence colors ≤ 1) ∧
    calculateOptimizationScore stdDev avgGradient colors none =
      min 100 (analyzeContrast stdDev * 25 +
        analyzeTextReadability avgGradient * 25 +
        analyzeCompositionThumb colors * 25 +
        analyzeBrandingPresence colors * 25) ∧
    (∀ msg : String,
      calculateOptimizationScore stdDev avgGradient colors (some msg) = 50) := by
  refine ⟨?_, ?_, ?_, ?_, rfl, fun msg => by norm_num [calculateOptimizationScore]⟩
  · rcases stdDev with e | s
    · constructor <;> norm_num [analyzeContrast]
    · have h0 : (0 : ℚ) ≤ s := hs s rfl
      refine ⟨clip01_nonneg (by positivity), clip01_le_one _⟩
  · rcases avgGradient with e | g
    · constructor <;> norm_num [analyzeTextReadability]
    · have h0 : (0 : ℚ) ≤ g := hg g rfl
      refine ⟨clip01_nonneg (by positivity), clip01_le_one _⟩
  · rcases colors with e | cs
    · constructor <;> norm_num [analyzeCompositionThumb]
    · rcases cs with _ | cs
      · constructor <;> norm_num [analyzeCompositionThumb]
      · rw [analyzeCompositionThumb]
        split_ifs
        · constructor <;> norm_num
        · exact ⟨clip01_nonneg (by positivity), clip01_le_one _⟩
  · rcases colors with e | cs
    · constructor <;> norm_num [analyzeBrandingPresence]
    · rcases cs with _ | cs
      · constructor <;> norm_num [analyzeBrandingPresence]
      · rw [analyzeBrandingPresence]
        dsimp only
        split_ifs
        · constructor <;> norm_num
        · constructor <;> norm_num
        · exact ⟨clip01_nonneg (by positivity), clip01_le_one _⟩

/-- Witness for C4: concrete pixel statistics (std-dev 64, mean gradient
10, two color-count entries, one of them the brand red). -/
theorem thumbnailScore_spec_witness :
    (0 ≤ analyzeContrast (.ok 64) ∧ analyzeContrast (.ok 64) ≤ 1) ∧
    (0 ≤ analyzeTextReadability (.ok 10) ∧
      analyzeTextReadability (.ok 10) ≤ 1) ∧
    (0 ≤ analyzeCompositionThumb
        (.ok (some [(5, (229, 9, 20)), (3, (0, 0, 0))])) ∧
      analyzeCompositionThumb
        (.ok (some [(5, (229, 9, 20)), (3, (0, 0, 0))])) ≤ 1) ∧
    (0 ≤ analyzeBrandingPresence
        (.ok (some [(5, (229, 9, 20)), (3, (0, 0, 0))])) ∧
      analyzeBrandingPresence
        (.ok (some [(5, (229, 9, 20)), (3, (0, 0, 0))])) ≤ 1) ∧
    calculateOptimizationScore (.ok 64) (.ok 10)
        (.ok (some [(5, (229, 9, 20)), (3, (0, 0, 0))])) none =
      min 100 (analyzeContrast (.ok 64) * 25 +
        analyzeTextReadability (.ok 10) * 25 +
        analyzeCompositionThumb
          (.ok (some [(5, (229, 9, 20)), (3, (0, 0, 0))])) * 25 +
        analyzeBrandingPresence
          (.ok (some [(5, (229, 9, 20)), (3, (0, 0, 0))])) * 25) ∧
    (∀ msg : String,
      calculateOptimizationScore (.ok 64) (.ok 10)
        (.ok (some [(5, (229, 9, 20)), (3, (0, 0, 0))])) (some msg) = 50) :=
  thumbnailScore_spec (.ok 64) (.ok 10)
    (.ok (some [(5, (229, 9, 20)), (3, (0, 0, 0))]))
    (fun s h => by cases h; norm_num)
    (fun g h => by cases h; norm_num)

/-- **C1.** `CineNorteSystem.generate_content` executes the pipeline stages
in the fixed sequential order of `pipelineStages` — every trace is an
initial segment of that order, so content selection, script generation,
voice synthesis, subtitle generation, video-project creation, multi-format
export, thumbnail generation, impact scoring and the file writes happen in
that order, each stage at most once per invocation, in a single one-shot
single-threaded run. -/
theorem generateContent_stage_trace {C S V U P F T I D W : Type}
    (selectC : Option C)
    (genScript : C → Except String S)
    (genVoice : S → Except String V)
    (genSubtitles : V → S → Except String U)
    (createProject : S → Except String P)
    (genFormats : P → Except String F)
    (genThumbnails : P → Except String T)
    (analyzeImpact : P → Except String I)
    (genSeoData : S → Except String D)
    (saveFiles : S → U → I → Except String W) :
    (∃ k, k ≤ pipelineStages.length ∧
      (generateContent selectC genScript genVoice genSubtitles createProject
        genFormats genThumbnails analyzeImpact genSeoData saveFiles).2 =
        pipelineStages.take k) ∧
    (∀ st : Stage,
      ((generateContent selectC genScript genVoice genSubtitles createProject
        genFormats genThumbnails analyzeImpact genSeoData saveFiles).2).count st ≤ 1) ∧
    pipelineStages.Nodup ∧
    pipelineStages.erase Stage.seo =
      [Stage.select, Stage.script, Stage.voice, Stage.subtitles,
       Stage.videoProject, Stage.formatsExport, Stage.thumbnails,
       Stage.impact, Stage.writes] := by
  have hnodup : pipelineStages.Nodup := by decide
  have htrace : ∃ k, k ≤ pipelineStages.length ∧
      (generateContent selectC genScript genVoice genSubtitles createProject
        genFormats genThumbnails analyzeImpact genSeoData saveFiles).2 =
        pipelineStages.take k := by
    rw [generateContent.eq_def]
    rcases selectC with _ | content
    · exact ⟨1, by decide, rfl⟩
    dsimp only
    rcases h1 : genScript content with e | script
    · exact ⟨2, by decide, rfl⟩
    dsimp only
    rcases h2 : genVoice script with e | voice_path
    · exact ⟨3, by decide, rfl⟩
    dsimp only
    rcases h3 : genSubtitles voice_path script with e | subtitles
    · exact ⟨4, by decide, rfl⟩
    dsimp only
    rcases h4 : createProject script with e | video_project
    · exact ⟨5, by decide, rfl⟩
    dsimp only
    rcases h5 : genFormats video_project with e | video_paths
    · exact ⟨6, by decide, rfl⟩
    dsimp only
    rcases h6 : genThumbnails video_project with e | thumbnail_paths
    · exact ⟨7, by decide, rfl⟩
    dsimp only
    rcases h7 : analyzeImpact video_project with e | impact_analysis
    · exact ⟨8, by decide, rfl⟩
    dsimp only
    rcases h8 : genSeoData script with e | seo_data
    · exact ⟨9, by decide, rfl⟩
    dsimp only
    rcases h9 : saveFiles script subtitles impact_analysis with e | w
    · exact ⟨10, by decide, rfl⟩
    · exact ⟨10, by decide, rfl⟩
  refine ⟨htrace, ?_, hnodup, by decide⟩
  intro st
  obtain ⟨k, _, htr⟩ := htrace
  rw [htr]
  calc (pipelineStages.take k).count st
      ≤ pipelineStages.count st :=
        (List.take_sublist k pipelineStages).count_le st
    _ ≤ 1 := List.nodup_iff_count_le_one.mp hnodup st

/-- **C8.** For every script and content input with non-negative rating and
popularity, each heuristic scoring operation of `AIOptimizer` —
`_analyze_content_quality`, `_analyze_engagement_potential`,
`_analyze_viral_potential`, and `_calculate_overall_score` (on non-negative
component inputs, as produced by those analyses) — returns a value in
`[0, 100]`: each is a sum of non-negative bounded contributions capped by
`min(100, score)`. -/
theorem aiOptimizer_scores_in_range (env : ReEnv) (script : GeneratedScript)
    (content_info : ContentInfo) (daysOld : Option ℤ)
    (c e v vi : ℚ) (seo : List (String × ℚ)) (audio : AudioAnalysis)
    (hr : 0 ≤ content_info.rating) (hp : 0 ≤ content_info.popularity)
    (hc : 0 ≤ c) (he : 0 ≤ e) (hv : 0 ≤ v)
    (hseo : 0 ≤ seoOverallScore seo) (hvi : 0 ≤ vi)
    (hvc : 0 ≤ audio.volume_consistency) (hsc : 0 ≤ audio.speech_clarity) :
    (0 ≤ analyzeContentQuality script content_info ∧
      analyzeContentQuality script content_info ≤ 100) ∧
    (0 ≤ analyzeEngagementPotential env script ∧
      analyzeEngagementPotential env script ≤ 100) ∧
    (0 ≤ analyzeViralPotential script content_info daysOld ∧
      analyzeViralPotential script content_info daysOld ≤ 100) ∧
    (0 ≤ calculateOverallScore c e v seo vi audio ∧
      calculateOverallScore c e v seo vi audio ≤ 100) := by
  refine ⟨?_, ?_, ?_, ?_⟩
  · rw [analyzeContentQuality]
    constructor
    · refine cap100_nonneg ?_
      have h1 : (0 : ℚ) ≤ min (content_info.popularity / 100) 1 * 20 :=
        mul_nonneg (clip01_nonneg (by positivity)) (by norm_num)
      have h2 : (0 : ℚ) ≤ content_info.rating / 10 * 20 := by positivity
      split_ifs <;> linarith
    · exact cap100_le _
  · rw [analyzeEngagementPotential]
    constructor
    · refine cap100_nonneg ?_
      have h1 : (0 : ℚ) ≤
          min ((countEmotionalWords script.raw_text : ℚ) / 10) 1 * 25 :=
        mul_nonneg (clip01_nonneg (by positivity)) (by norm_num)
      have h2 : (0 : ℚ) ≤
          min (((env.findall_count "\\?" script.raw_text : ℚ) +
            (env.findall_count "(suscríbete|comenta|like|comparte)"
              script.raw_text : ℚ)) / 5) 1 * 25 :=
        mul_nonneg (clip01_nonneg (by positivity)) (by norm_num)
      have h3 : (0 : ℚ) ≤ min ((analyzeHooks env script : ℚ) / 3) 1 * 25 :=
        mul_nonneg (clip01_nonneg (by positivity)) (by norm_num)
      have h4 : (0 : ℚ) ≤
          min ((((script.sections.map (fun s => s.emotion)).dedup).length : ℚ) / 4)
            1 * 25 :=
        mul_nonneg (clip01_nonneg (by positivity)) (by norm_num)
      linarith
    · exact cap100_le _
  · have ht : 0 ≤ analyzeTrendingKeywords script.raw_text ∧
        analyzeTrendingKeywords script.raw_text ≤ 1 :=
      ⟨clip01_nonneg (by positivity), clip01_le_one _⟩
    have hco : 0 ≤ analyzeControversyPotential script content_info ∧
        analyzeControversyPotential script content_info ≤ 1 :=
      ⟨clip01_nonneg (by positivity), clip01_le_one _⟩
    have hsh : 0 ≤ analyzeShareability script ∧
        analyzeShareability script ≤ 1 :=
      ⟨clip01_nonneg (by positivity), clip01_le_one _⟩
    have htm : 0 ≤ analyzeTimingRelevance daysOld ∧
        analyzeTimingRelevance daysOld ≤ 1 := by
      rcases daysOld with _ | d
      · constructor <;> norm_num [analyzeTimingRelevance]
      · simp only [analyzeTimingRelevance]
        split_ifs <;> constructor <;> norm_num
    rw [analyzeViralPotential]
    constructor
    · refine cap100_nonneg ?_
      have l1 := mul_nonneg ht.1 (by norm_num : (0:ℚ) ≤ 30)
      have l2 := mul_nonneg hco.1 (by norm_num : (0:ℚ) ≤ 20)
      have l3 := mul_nonneg hsh.1 (by norm_num : (0:ℚ) ≤ 25)
      have l4 := mul_nonneg htm.1 (by norm_num : (0:ℚ) ≤ 25)
      linarith
    · exact cap100_le _
  · rw [calculateOverallScore]
    constructor
    · refine cap100_nonneg ?_
      have l1 := mul_nonneg hc (by norm_num : (0:ℚ) ≤ 0.25)
      have l2 := mul_nonneg he (by norm_num : (0:ℚ) ≤ 0.25)
      have l3 := mul_nonneg hv (by norm_num : (0:ℚ) ≤ 0.20)
      have l4 := mul_nonneg hseo (by norm_num : (0:ℚ) ≤ 0.15)
      have l5 := mul_nonneg hvi (by norm_num : (0:ℚ) ≤ 0.10)
      have l6 : (0 : ℚ) ≤ (audio.volume_consistency + audio.speech_clarity) / 2 * 0.05 :=
        mul_nonneg (by positivity) (by norm_num)
      linarith
    · exact cap100_le _

/-- Witness for C8: the bounds at a concrete script, content, regex oracle
and component scores. -/
theorem aiOptimizer_scores_in_range_witness :
    (0 ≤ analyzeContentQuality exampleScript exampleContent ∧
      analyzeContentQuality exampleScript exampleContent ≤ 100) ∧
    (0 ≤ analyzeEngagementPotential exampleReEnv exampleScript ∧
      analyzeEngagementPotential exampleReEnv exampleScript ≤ 100) ∧
    (0 ≤ analyzeViralPotential exampleScript exampleContent (some 45) ∧
      analyzeViralPotential exampleScript exampleContent (some 45) ≤ 100) ∧
    (0 ≤ calculateOverallScore 70 60 50 [("overall_score", 40)] 30 exampleAudio ∧
      calculateOverallScore 70 60 50 [("overall_score", 40)] 30 exampleAudio ≤ 100) :=
  aiOptimizer_scores_in_range exampleReEnv exampleScript exampleContent
    (some 45) 70 60 50 30 [("overall_score", 40)] exampleAudio
    (by norm_num [exampleContent]) (by norm_num [exampleContent])
    (by norm_num) (by norm_num) (by norm_num)
    (by norm_num [seoOverallScore, List.lookup]) (by norm_num)
    (by norm_num [exampleAudio]) (by norm_num [exampleAudio])

set_option maxRecDepth 10000 in
/-- **C9 counterexample.** The viability label is *not* determined by the
thresholds 80/60/40 applied to `total_score`: at `roundingBoundaryContent`
the raw score is `79.996`, so the label is `"Buena"`, yet `total_score`
(the raw score rounded to two decimals) is exactly `80`, which the
threshold rule would classify as `"Excelente"`. -/
theorem viabilityLabel_not_from_total_score :
    (analyzeContentViability roundingBoundaryContent).total_score = 80 ∧
    (analyzeContentViability roundingBoundaryContent).viability = "Buena" ∧
    viabilityLabel 80 = "Excelente" ∧
    ("Buena" : String) ≠ "Excelente" := by
  have hlen : roundingBoundaryContent.overview.length = 200 := by decide
  have hgen : roundingBoundaryContent.genre.any
      (fun genre => highImpactGenres.contains genre) = true := by decide
  have htrl : roundingBoundaryContent.trailer_url.isSome = true := rfl
  have hpop : roundingBoundaryContent.popularity = 100 := rfl
  have hrat : roundingBoundaryContent.rating = 1.9984 := rfl
  have hscore : viabilityScore roundingBoundaryContent = 79.996 := by
    rw [viabilityScore, hlen, hgen, htrl, hpop, hrat]
    norm_num [min_def]
  have hfloor : Int.floor ((7999.6 : ℚ)) = 7999 := by
    rw [Int.floor_eq_iff]
    norm_num
  have hrhe : roundHalfEven (100 * (79.996 : ℚ)) = 8000 := by
    have h1 : (100 : ℚ) * 79.996 = 7999.6 := by norm_num
    rw [roundHalfEven, h1, hfloor]
    norm_num
  have htot : (analyzeContentViability roundingBoundaryContent).total_score
      = 80 := by
    have : (analyzeContentViability roundingBoundaryContent).total_score =
        round2 (viabilityScore roundingBoundaryContent) := rfl
    rw [this, hscore, round2, hrhe]
    norm_num
  have hlab : (analyzeContentViability roundingBoundaryContent).viability
      = "Buena" := by
    have : (analyzeContentViability roundingBoundaryContent).viability =
        viabilityLabel (viabilityScore roundingBoundaryContent) := rfl
    rw [this, hscore, viabilityLabel]
    norm_num
  refine ⟨htot, hlab, by norm_num [viabilityLabel], by decide⟩

/-- **C9 (amended).** `analyze_content_viability`'s `total_score` is
monotone non-decreasing in `content.popularity` and in `content.rating`
(for two `ContentInfo` values differing only in that field), and the
viability label (`Excelente`/`Buena`/`Regular`/`Baja`) is determined by the
thresholds 80, 60 and 40 applied to the *unrounded* viability score —
which `total_score` only reports rounded to two decimals, so at rounding
boundaries the label may disagree with the same thresholds applied to
`total_score`. -/
theorem viability_monotone_and_thresholds
    (c : ContentInfo) (p p' r r' : ℚ) (hp : p ≤ p') (hr : r ≤ r') :
    (analyzeContentViability { c with popularity := p }).total_score ≤
      (analyzeContentViability { c with popularity := p' }).total_score ∧
    (analyzeContentViability { c with rating := r }).total_score ≤
      (analyzeContentViability { c with rating := r' }).total_score ∧
    (∀ d : ContentInfo,
      ((analyzeContentViability d).viability = "Excelente" ↔
        80 ≤ viabilityScore d) ∧
      ((analyzeContentViability d).viability = "Buena" ↔
        60 ≤ viabilityScore d ∧ viabilityScore d < 80) ∧
      ((analyzeContentViability d).viability = "Regular" ↔
        40 ≤ viabilityScore d ∧ viabilityScore d < 60) ∧
      ((analyzeContentViability d).viability = "Baja" ↔
        viabilityScore d < 40)) := by
  have hts : ∀ x : ContentInfo,
      (analyzeContentViability x).total_score = round2 (viabilityScore x) :=
    fun x => rfl
  refine ⟨?_, ?_, ?_⟩
  · rw [hts, hts]
    refine round2_mono ?_
    dsimp only [viabilityScore]
    have h1 : min (p / 100) 1 * 30 ≤ min (p' / 100) 1 * 30 := by
      have := min_le_min
        ((div_le_div_iff_of_pos_right (by norm_num : (0:ℚ) < 100)).mpr hp)
        (le_refl (1 : ℚ))
      linarith
    linarith
  · rw [hts, hts]
    refine round2_mono ?_
    dsimp only [viabilityScore]
    linarith
  · intro d
    have hvl : (analyzeContentViability d).viability =
        viabilityLabel (viabilityScore d) := rfl
    rw [hvl, viabilityLabel]
    split_ifs with h1 h2 h3
    · refine ⟨⟨fun _ => h1, fun _ => rfl⟩, ⟨?_, ?_⟩, ⟨?_, ?_⟩, ⟨?_, ?_⟩⟩
      · intro hh; exact absurd hh (by decide)
      · intro hh; exfalso; obtain ⟨hh1, hh2⟩ := hh; linarith
      · intro hh; exact absurd hh (by decide)
      · intro hh; exfalso; obtain ⟨hh1, hh2⟩ := hh; linarith
      · intro hh; exact absurd hh (by decide)
      · intro hh; exfalso; linarith
    · have h1' : viabilityScore d < 80 := lt_of_not_le h1
      refine ⟨⟨?_, ?_⟩, ⟨fun _ => ⟨h2, h1'⟩, fun _ => rfl⟩,
        ⟨?_, ?_⟩, ⟨?_, ?_⟩⟩
      · intro hh; exact absurd hh (by decide)
      · intro hh; exfalso; linarith
      · intro hh; exact absurd hh (by decide)
      · intro hh; exfalso; obtain ⟨hh1, hh2⟩ := hh; linarith
      · intro hh; exact absurd hh (by decide)
      · intro hh; exfalso; linarith
    · have h1' : viabilityScore d < 80 := lt_of_not_le h1
      have h2' : viabilityScore d < 60 := lt_of_not_le h2
      refine ⟨⟨?_, ?_⟩, ⟨?_, ?_⟩,
        ⟨fun _ => ⟨h3, h2'⟩, fun _ => rfl⟩, ⟨?_, ?_⟩⟩
      · intro hh; exact absurd hh (by decide)
      · intro hh; exfalso; linarith
      · intro hh; exact absurd hh (by decide)
      · intro hh; exfalso; obtain ⟨hh1, hh2⟩ := hh; linarith
      · intro hh; exact absurd hh (by decide)
      · intro hh; exfalso; linarith
    · have h1' : viabilityScore d < 80 := lt_of_not_le h1
      have h2' : viabilityScore d < 60 := lt_of_not_le h2
      have h3' : viabilityScore d < 40 := lt_of_not_le h3
      refine ⟨⟨?_, ?_⟩, ⟨?_, ?_⟩, ⟨?_, ?_⟩,
        ⟨fun _ => h3', fun _ => rfl⟩⟩
      · intro hh; exact absurd hh (by decide)
      · intro hh; exfalso; linarith
      · intro hh; exact absurd hh (by decide)
      · intro hh; exfalso; obtain ⟨hh1, hh2⟩ := hh; linarith
      · intro hh; exact absurd hh (by decide)
      · intro hh; exfalso; obtain ⟨hh1, hh2⟩ := hh; linarith

/-- Witness for C9 (amended): the monotonicity and threshold facts at a
concrete content and concrete popularity/rating pairs. -/
theorem viability_monotone_and_thresholds_witness :
    (analyzeContentViability { exampleContent with popularity := 10 }).total_score ≤
      (analyzeContentViability { exampleContent with popularity := 20 }).total_score ∧
    (analyzeContentViability { exampleContent with rating := 5 }).total_score ≤
      (analyzeContentViability { exampleContent with rating := 6 }).total_score ∧
    (∀ d : ContentInfo,
      ((analyzeContentViability d).viability = "Excelente" ↔
        80 ≤ viabilityScore d) ∧
      ((analyzeContentViability d).viability = "Buena" ↔
        60 ≤ viabilityScore d ∧ viabilityScore d < 80) ∧
      ((analyzeContentViability d).viability = "Regular" ↔
        40 ≤ viabilityScore d ∧ viabilityScore d < 60) ∧
      ((analyzeContentViability d).viability = "Baja" ↔
        viabilityScore d < 40)) :=
  viability_monotone_and_thresholds exampleContent 10 20 5 6
    (by norm_num) (by norm_num)

/-- **C10.** For every limit, `get_content_for_analysis` returns at most
`limit` items — at most `limit//2` trending movies plus at most `limit//2`
trending TV shows — and the returned list is sorted in non-increasing order
of `popularity * rating`. -/
theorem getContentForAnalysis_spec (env : TmdbEnv) (limit : ℕ) :
    (getContentForAnalysis env limit).length ≤ limit ∧
    (getContentForAnalysis env limit).length ≤ limit / 2 + limit / 2 ∧
    List.Pairwise (fun a b => contentKey b ≤ contentKey a)
      (getContentForAnalysis env limit) ∧
    ∀ x ∈ getContentForAnalysis env limit,
      x ∈ (getTrendingContent env "week" "movie").take (limit / 2) ++
          (getTrendingContent env "week" "tv").take (limit / 2) := by
  have hdef : getContentForAnalysis env limit =
      (((getTrendingContent env "week" "movie").take (limit / 2) ++
        (getTrendingContent env "week" "tv").take (limit / 2)).mergeSort
          (fun a b => decide (contentKey b ≤ contentKey a))).take limit := rfl
  refine ⟨?_, ?_, ?_, ?_⟩
  · rw [hdef, List.length_take]
    exact min_le_left _ _
  · rw [hdef, List.length_take]
    refine le_trans (min_le_right _ _) ?_
    rw [List.length_mergeSort, List.length_append]
    exact add_le_add (List.length_take_le _ _) (List.length_take_le _ _)
  · rw [hdef]
    have trans : ∀ a b c : ContentInfo,
        decide (contentKey b ≤ contentKey a) →
        decide (contentKey c ≤ contentKey b) →
        decide (contentKey c ≤ contentKey a) := by
      intro a b c hab hbc
      simp only [decide_eq_true_eq] at *
      exact le_trans hbc hab
    have total : ∀ a b : ContentInfo,
        (decide (contentKey b ≤ contentKey a) ||
         decide (contentKey a ≤ contentKey b)) = true := by
      intro a b
      simp only [Bool.or_eq_true, decide_eq_true_eq]
      exact le_total _ _
    have hsorted := List.sorted_mergeSort trans total
      ((getTrendingContent env "week" "movie").take (limit / 2) ++
       (getTrendingContent env "week" "tv").take (limit / 2))
    exact (hsorted.imp (fun h => of_decide_eq_true h)).sublist
      (List.take_sublist _ _)
  · intro x hx
    rw [hdef] at hx
    exact List.mem_mergeSort.mp (List.mem_of_mem_take hx)

end CineNorte
